import Mathlib

/-!
Shallow embedding of `lutris/installer/installer.py` (class `LutrisInstaller`).

Python values flowing through the installer are modelled by the inductive
type `PVal` (strings, booleans, integers, lists, string-keyed dicts, None).
External collaborators (the variable-substitution engine, the game store,
the acquisition services, the filesystem, the legacy launcher lookup) are
passed in explicitly through the `Env`, `Service` and `db` parameters,
mirroring the interfaces stated in the design spec.
-/

namespace LutrisSpec

/-- Model of a dynamically typed Python value as used by the installer:
strings, booleans, integers, lists, string-keyed dicts and None.
Dict keys are modelled as strings (the installer validates keys are
strings before use). -/
inductive PVal where
  | str : String → PVal
  | bool : Bool → PVal
  | int : Int → PVal
  | list : List PVal → PVal
  | dict : List (String × PVal) → PVal
  | none : PVal

/-- Python truthiness for the modelled values. -/
def truthy : PVal → Bool
  | PVal.str s => !(s == "")
  | PVal.bool b => b
  | PVal.int n => !(n == 0)
  | PVal.list l => !l.isEmpty
  | PVal.dict d => !d.isEmpty
  | PVal.none => false

/-- Lookup of a key in a modelled dict, returning the stored value. -/
def dictFind (d : List (String × PVal)) (k : String) : Option PVal :=
  match d.find? (fun kv => kv.1 == k) with
  | some kv => some kv.2
  | Option.none => Option.none

/-- Python `d.get(k)`: the stored value, or None when the key is absent. -/
def dictGet (d : List (String × PVal)) (k : String) : PVal :=
  (dictFind d k).getD PVal.none

/-- Python `d.get(k, default)`. -/
def pyGetD (d : List (String × PVal)) (k : String) (dflt : PVal) : PVal :=
  (dictFind d k).getD dflt

/-- Python `k in d` for a dict. -/
def hasKey (d : List (String × PVal)) (k : String) : Bool :=
  (dictFind d k).isSome

/-- Python `d[k] = v`: replace in place when the key exists (order kept),
otherwise append. -/
def dictSet (d : List (String × PVal)) (k : String) (v : PVal) : List (String × PVal) :=
  if hasKey d k then d.map (fun kv => if kv.1 == k then (k, v) else kv) else d ++ [(k, v)]

/-- Python `base.update(upd)`: entries of `upd` override or extend `base`,
preserving the insertion-order semantics of dicts. -/
def dictUpdate (base upd : List (String × PVal)) : List (String × PVal) :=
  upd.foldl (fun acc kv => dictSet acc kv.1 kv.2) base

/-- An ASCII single-quote character as a string (used in the literal error
messages the installer produces). -/
def sq : String := String.singleton (Char.ofNat 39)

mutual

/-- Python `repr` of a modelled value (strings quoted, containers
bracketed), the element form used inside `str` of a container. -/
def pyRepr : PVal → String
  | PVal.str s => sq ++ s ++ sq
  | PVal.bool true => "True"
  | PVal.bool false => "False"
  | PVal.int n => toString n
  | PVal.none => "None"
  | PVal.list l => "[" ++ String.intercalate ", " (pyReprList l) ++ "]"
  | PVal.dict d => "\x7b" ++ String.intercalate ", " (pyReprDict d) ++ "\x7d"

/-- `repr` of each element of a list. -/
def pyReprList : List PVal → List String
  | [] => []
  | v :: vs => pyRepr v :: pyReprList vs

/-- `repr` of each key-value entry of a dict. -/
def pyReprDict : List (String × PVal) → List String
  | [] => []
  | (k, v) :: kvs => (sq ++ k ++ sq ++ ": " ++ pyRepr v) :: pyReprDict kvs

end

/-- Python `str(value)`: identity on strings, `repr`-style otherwise. -/
def pyStr : PVal → String
  | PVal.str s => s
  | v => pyRepr v

/-- Python `s.lower()` (character-wise lowercasing). -/
def pyLower (s : String) : String := String.mk (s.data.map Char.toLower)

/-- Python `s.startswith(pre)`. -/
def pyStartswith (s pre : String) : Bool := pre.data.isPrefixOf s.data

/-- Python substring / membership test `key in v` (substring for strings,
element equality for lists, key lookup for dicts; other operand types
raise in Python and are modelled as False). -/
def pyIn (key : String) (v : PVal) : Bool :=
  match v with
  | PVal.dict d => hasKey d key
  | PVal.str s => (s.splitOn key).length > 1
  | PVal.list l => l.any (fun x => match x with | PVal.str t => t == key | _ => false)
  | _ => false

/-- A record of the games store, as returned by `get_game_by_field`
(only the fields the installer reads are modelled).
Modelled from the spec: the store itself (`lutris.database.games`) is an
external collaborator with `findBySlug`-style lookups. -/
structure GameRecord where
  id : Nat
  installed : Bool
  configpath : String

/-- One file to acquire, as produced from the script file declarations.
Modelled from the spec: `installer_file.py` is outside the analysed
source; the spec describes an id, a declared URL and a destination
filename, with substitution producing new instances. -/
structure InstallerFile where
  game_slug : String
  id : String
  url : String
  filename : String

/-- Modelled from the spec: `copy` returns a new, independent instance
with the same fields. -/
def InstallerFile.copy (f : InstallerFile) : InstallerFile :=
  { game_slug := f.game_slug, id := f.id, url := f.url, filename := f.filename }

/-- Modelled from the spec: `set_url` rewrites the declared URL of a
working-copy file. -/
def InstallerFile.set_url (f : InstallerFile) (u : String) : InstallerFile :=
  { f with url := u }

/-- `LutrisInstaller.get_game_id`: return the id of the existing store
record for the game slug, when one exists and either this script extends
another install or the existing record is not installed. The store lookup
`get_game_by_field(value, field)` is passed in as `db`. -/
def get_game_id (db : String → String → Option GameRecord) (game_slug : String)
    (extends_ : PVal) : Option Nat :=
  match db game_slug "slug" with
  | some g => if truthy extends_ || !g.installed then some g.id else Option.none
  | Option.none => Option.none

/-- Definition following the claim C1 words (spec side, for comparison
with `get_game_id`): an existing id is returned only if `extends` is
declared, or neither `extends` nor `requires` is declared and the record
is not marked installed. -/
def get_game_id_claim (db : String → String → Option GameRecord) (game_slug : String)
    (extends_ requires_ : PVal) : Option Nat :=
  match db game_slug "slug" with
  | some g =>
    if truthy extends_ then some g.id
    else if !truthy extends_ && !truthy requires_ && !g.installed then some g.id
    else Option.none
  | Option.none => Option.none

/-- A one-record store used to exercise the identity resolution on the
resume scenario: slug `foo`, installed = false, id 1. -/
def exDb : String → String → Option GameRecord := fun v f =>
  if v == "foo" && f == "slug" then some { id := 1, installed := false, configpath := "cfg" }
  else Option.none

/-- One acquisition provider (service), as consumed by the installer.
Modelled from the spec: providers expose online/authenticated state,
extras support, and installer/patch file-list requests (an empty result
models both a failed and an empty provider response, which the code
treats alike through falsiness). -/
structure Service where
  id : String
  online : Bool
  connected : Bool
  has_extras : Bool
  get_installer_files : String → PVal → List InstallerFile
  get_patch_files : String → List InstallerFile

/-- The field set handed to `add_or_update` when the install record is
upserted (in source order). -/
structure Upsert where
  name : String
  runner : String
  slug : String
  platform : String
  directory : String
  installed : Nat
  hidden : Nat
  installer_slug : String
  parent_slug : PVal
  year : PVal
  configpath : String
  service : Option String
  service_id : PVal
  id : Option Nat
  discord_id : PVal

/-- The external collaborators and interpreter state the installer
reads. Modelled from the spec: variable substitution (`subst` on config
values, `subst_str` on URL strings — the same external `_substitute`
engine), the moddb URL helper, the stores, the filesystem probe, the
legacy launcher lookup, runner platform lookup, executable finders and
the GOG config adapters. -/
structure Env where
  subst : PVal → PVal
  subst_str : String → String
  extras : PVal
  is_moddb_url : String → Bool
  get_moddb_download_url : String → String
  db : String → String → Option GameRecord
  load_config : String → String → List (String × PVal)
  target_path : String
  game_files : List (String × PVal)
  path_exists : String → Bool
  get_game_launcher : List (String × PVal) → Option String × PVal
  find_linux_exe : String → String
  find_windows_exe : String → String
  platform_of : String → String
  write_game_config : String → List (String × PVal) → String
  add_or_update : Upsert → Nat
  gog_config : String → PVal
  gog_game_path : String → String
  convert_gog : PVal → String → List (String × PVal)

/-- The per-install state of a `LutrisInstaller` (the attributes set in
`__init__` that the analysed methods read; the script is its dict of
entries, already validated to be a mapping for these methods). -/
structure Inst where
  version : String
  slug : String
  year : PVal
  runner : String
  script : List (String × PVal)
  game_name : String
  game_slug : String
  service : Option Service
  service_appid : PVal
  script_variables : PVal
  script_files : List InstallerFile
  files : List InstallerFile
  requires : PVal
  extends_ : PVal
  game_id : Option Nat
  is_gog : Bool
  discord_id : PVal

/-- Python `a or b` on modelled values: `a` when truthy, else `b`. -/
def pyOr (a b : PVal) : PVal := if truthy a then a else b

/-- Python `v.get(k)` where `v` should be a dict (a non-dict raises in
Python; modelled as None, no claim exercises that path). -/
def pvGet (v : PVal) (k : String) : PVal :=
  match v with
  | PVal.dict g => dictGet g k
  | _ => PVal.none

/-- `LutrisInstaller.get_appid`: select the provider-side identifier.
DLC scripts always use their `dlcid`; otherwise an explicit caller
identifier wins; otherwise provider-specific script/game-section fields,
then the generic `service_id` field, per bound provider. -/
def get_appid (service : Option Service) (script installer : List (String × PVal))
    (initial : PVal) : PVal :=
  if truthy (dictGet installer "is_dlc") then dictGet installer "dlcid"
  else if truthy initial then initial
  else
    match service with
    | Option.none => PVal.none
    | some s =>
      if s.id == "steam" then
        pyOr (dictGet installer "steamid") (dictGet installer "service_id")
      else
        if s.id == "gog" then
          pyOr (pvGet (pyGetD script "game" (PVal.dict [])) "gogid")
            (pyOr (dictGet installer "gogid") (dictGet installer "service_id"))
        else if s.id == "humblebundle" then
          pyOr (pvGet (pyGetD script "game" (PVal.dict [])) "humbleid")
            (pyOr (dictGet installer "humblestoreid") (dictGet installer "service_id"))
        else PVal.none

/-- The validation message for a non-mapping script. -/
def dictMsg : String := "Script must be a dictionary"

/-- The validation message for a missing required field. -/
def missingMsg (f : String) : String := "Missing field " ++ sq ++ f ++ sq

/-- The validation message for a libretro script without a core. -/
def coreMsg : String := "Missing libretro core in game section"

/-- The validation message for a Steam script without an appid. -/
def appidMsg : String := "Missing appid for Steam game"

/-- The validation message for a script with both requires and extends
(the literal source string contains an apostrophe). -/
def bothMsg : String := "Scripts can" ++ sq ++ "t have both extends and requires"

/-- `LutrisInstaller.get_errors`: validate the script. A non-mapping
script short-circuits to the single dictionary error; otherwise the
missing-field, libretro-core, steam-appid and requires/extends checks
accumulate, in source order. Pure: it consults no store. -/
def get_errors (script : PVal) (runner game_name game_slug : String) : List String :=
  match script with
  | PVal.dict d =>
    (if runner == "" then [missingMsg "runner"] else []) ++
    (if game_name == "" then [missingMsg "game_name"] else []) ++
    (if game_slug == "" then [missingMsg "game_slug"] else []) ++
    (if runner == "libretro" then
      (match dictFind d "game" with
       | some g => if pyIn "core" g then [] else [coreMsg]
       | Option.none => [coreMsg])
     else []) ++
    (if runner == "steam" then
      (if truthy (pvGet (pyGetD d "game" (PVal.dict [])) "appid") then [] else [appidMsg])
     else []) ++
    (if truthy (dictGet d "requires") && truthy (dictGet d "extends") then [bothMsg] else [])
  | _ => [dictMsg]

/-- `LutrisInstaller.get_user_provided_file`: the id of the first
declared file whose URL carries the manual-entry sentinel. -/
def get_user_provided_file (script_files : List InstallerFile) : Option String :=
  match script_files.find? (fun f => pyStartswith f.url "N/A") with
  | some f => some f.id
  | Option.none => Option.none

/-- The per-file rewriting of the working copy in `prepare_game_files`:
take a fresh copy, substitute variables in the URL, then rewrite a
moddb-host URL to its direct download form. -/
def transformFile (env : Env) (f : InstallerFile) : InstallerFile :=
  let f := f.copy
  let f := f.set_url (env.subst_str f.url)
  if env.is_moddb_url f.url then f.set_url (env.get_moddb_download_url f.url) else f

/-- Whether a file id equals the held-aside (user-provided) id. -/
def heldMatches (held : Option String) (i : String) : Bool :=
  match held with
  | some h => i == h
  | Option.none => false

/-- The working copy built by `prepare_game_files`: copies of all
declared files except the held-aside id, each URL-rewritten. -/
def workingCopy (env : Env) (script_files : List InstallerFile)
    (held : Option String) : List InstallerFile :=
  (script_files.filter (fun f => !heldMatches held f.id)).map (transformFile env)

/-- The outcome of one `prepare_game_files` call: whether the
authentication error was raised, the resulting installer state, and
whether a provider file-list request was made. -/
structure PlanRes where
  error : Bool
  inst : Inst
  provider_called : Bool

/-- `LutrisInstaller.prepare_game_files`: build the ordered working file
list. No declared files is a no-op; an online but unauthenticated bound
provider raises before anything else; otherwise the held-aside id is
excluded from the URL-rewritten working copy and, when a provider is
bound, the provider's patch or installer file list is appended — an
empty (falsy) provider result re-inserts a manual-entry placeholder at
the front. (The `selected_extras` assignment on the service is a
provider-side effect outside this state and is not modelled.) -/
def prepare_game_files (env : Env) (inst : Inst) (patch_version : Option String) : PlanRes :=
  if inst.script_files.isEmpty then { error := false, inst := inst, provider_called := false }
  else
    match inst.service with
    | some s =>
      if s.online && !s.connected then { error := true, inst := inst, provider_called := false }
      else
        let installer_file_id := get_user_provided_file inst.script_files
        let files := workingCopy env inst.script_files installer_file_id
        match installer_file_id with
        | some fid =>
          if fid == "" then
            { error := false, inst := { inst with files := files }, provider_called := false }
          else
            let got :=
              match patch_version with
              | some _ => s.get_patch_files fid
              | Option.none => s.get_installer_files fid env.extras
            if got.isEmpty then
              { error := false
                inst := { inst with files :=
                  { game_slug := inst.game_slug, id := fid, url := "N/A: Provider installer file",
                    filename := "" } :: files }
                provider_called := true }
            else
              { error := false, inst := { inst with files := files ++ got },
                provider_called := true }
        | Option.none =>
          { error := false, inst := { inst with files := files }, provider_called := false }
    | Option.none =>
      { error := false
        inst := { inst with files := workingCopy env inst.script_files Option.none }
        provider_called := false }

/-- The second boolean-normalization check of `_substitute_config`: a
value whose Python string form is `false` (any case) becomes False. -/
def normalizeFalse (v : PVal) : PVal :=
  if pyLower (pyStr v) == "false" then PVal.bool false else v

/-- The two sequential boolean-normalization checks of
`_substitute_config`: a value whose Python string form is `true` (any
case) becomes True, then one whose string form is `false` becomes
False. -/
def normalizeBool (value : PVal) : PVal :=
  normalizeFalse (if pyLower (pyStr value) == "true" then PVal.bool true else value)

/-- The body of `_substitute_config` for one key-value entry: normalize
boolean-looking values first, then dispatch: `launch_configs`
substitutes inside its list of mappings (anything else there raises),
lists and dicts are substituted element-wise, booleans pass through,
any other scalar is substituted. -/
def substitute_value (sub : PVal → PVal) (key : String) (value : PVal) : Except Unit PVal :=
  let v2 := normalizeBool value
  if key == "launch_configs" then
    match v2 with
    | PVal.list confs =>
      match confs.mapM (fun c =>
          match c with
          | PVal.dict cd => Except.ok (PVal.dict (cd.map (fun kv => (kv.1, sub kv.2))))
          | _ => Except.error ()) with
      | Except.ok cs => Except.ok (PVal.list cs)
      | Except.error e => Except.error e
    | _ => Except.error ()
  else
    match v2 with
    | PVal.list l => Except.ok (PVal.list (l.map sub))
    | PVal.dict dd => Except.ok (PVal.dict (dd.map (fun kv => (kv.1, sub kv.2))))
    | PVal.bool b => Except.ok (PVal.bool b)
    | v => Except.ok (sub v)

/-- `LutrisInstaller._substitute_config`: apply `substitute_value` to
every entry in order (keys are modelled as strings; the non-string-key
guard of the source sits outside this model). -/
def substitute_config (sub : PVal → PVal) :
    List (String × PVal) → Except Unit (List (String × PVal))
  | [] => Except.ok []
  | (key, value) :: rest =>
    match substitute_value sub key value with
    | Except.error e => Except.error e
    | Except.ok v =>
      match substitute_config sub rest with
      | Except.error e => Except.error e
      | Except.ok r => Except.ok ((key, v) :: r)

/-- Join of the install target with a script-relative path (the
`os.path.join` use sites of the installer always join a directory with a
relative name). -/
def pathJoin (a b : String) : String := a ++ "/" ++ b

/-- Resolution of one element of a list-valued launcher reference
(source list branch): a string found in the installed-files map is
replaced by the mapped value, anything else is kept verbatim. -/
def resolveLauncherRef (env : Env) (game_file : PVal) : PVal :=
  match game_file with
  | PVal.str s =>
    (match dictFind env.game_files s with
     | some p => p
     | Option.none => game_file)
  | _ => game_file

/-- `LutrisInstaller.get_game_launcher_config`: fold the legacy
root-level launcher shortcut into the game config. A list value is
resolved element-wise through the installed-files map only; a truthy
single value is looked up in the map, then probed on disk relative to
the install target, else kept raw (a truthy non-string single value is
kept raw: the map cannot contain it and the filesystem join would raise
in Python). -/
def get_game_launcher_config (env : Env) (script : List (String × PVal)) :
    Option String × PVal :=
  match env.get_game_launcher script with
  | (launcher, PVal.list l) => (launcher, PVal.list (l.map (resolveLauncherRef env)))
  | (launcher, v) =>
    if truthy v then
      match v with
      | PVal.str s =>
        (match dictFind env.game_files s with
         | some p => (launcher, p)
         | Option.none =>
           if env.target_path != "" && env.path_exists (pathJoin env.target_path s) then
             (launcher, PVal.str (pathJoin env.target_path s))
           else (launcher, v))
      | _ => (launcher, v)
    else (launcher, v)

/-- Definition following the claim C6 words (spec side, for comparison
with `get_game_launcher_config`): every referenced value — whether the
launcher value is a single value or an element of a list — goes through
installed-files map, then filesystem probe, then raw. -/
def resolveLauncherClaim (env : Env) (v : PVal) : PVal :=
  let one := fun (x : PVal) =>
    match x with
    | PVal.str s =>
      (match dictFind env.game_files s with
       | some p => p
       | Option.none =>
         if env.target_path != "" && env.path_exists (pathJoin env.target_path s) then
           PVal.str (pathJoin env.target_path s)
         else x)
    | _ => x
  match v with
  | PVal.list l => PVal.list (l.map one)
  | x => one x

/-- Auto-detect sentinel for a Linux executable. Modelled from the spec:
the sentinel constants live in the external installer package; only
bit-exact substring dispatch on them matters here. -/
def AUTO_ELF_EXE : String := "AUTO_ELF_EXE"

/-- Auto-detect sentinel for a Windows executable (modelled from the
spec, as for the Linux sentinel). -/
def AUTO_WIN32_EXE : String := "AUTO_WIN32_EXE"

/-- Python substring test `pat in s`. -/
def containsSub (s pat : String) : Bool := (s.splitOn pat).length > 1

/-- Substring dispatch on the exe config value (a non-string exe would
raise in Python; modelled as no match). -/
def exeHasSub (v : PVal) (pat : String) : Bool :=
  match v with
  | PVal.str s => containsSub s pat
  | _ => false

/-- A script section run through `_substitute_config` (a non-mapping
section raises in Python; modelled as an error). -/
def sectionSubst (sub : PVal → PVal) (v : PVal) : Except Unit (List (String × PVal)) :=
  match v with
  | PVal.dict d => substitute_config sub d
  | _ => Except.error ()

/-- `LutrisInstaller.get_game_config`: compose the final configuration:
base config from the `requires` game when set (error when no record
matches), overlay substituted system and runner sections, fold in the
launcher shortcut, merge and substitute the script game section,
resolve auto-executable sentinels, then stamp identity metadata and the
provider binding. -/
def get_game_config (env : Env) (inst : Inst) : Except Unit (List (String × PVal)) := do
  let config ←
    if truthy inst.requires then
      match inst.requires with
      | PVal.str r =>
        (match (env.db r "installer_slug").orElse (fun _ => env.db r "slug") with
         | some g => Except.ok (env.load_config inst.runner g.configpath)
         | Option.none => Except.error ())
      | _ => Except.error ()
    else Except.ok [("game", PVal.dict [])]
  let config ←
    if hasKey inst.script "system" then do
      let s ← sectionSubst env.subst (dictGet inst.script "system")
      Except.ok (dictSet config "system" (PVal.dict s))
    else Except.ok config
  let config ←
    if hasKey inst.script inst.runner && truthy (dictGet inst.script inst.runner) then do
      let s ← sectionSubst env.subst (dictGet inst.script inst.runner)
      Except.ok (dictSet config inst.runner (PVal.dict s))
    else Except.ok config
  let launcherPair := get_game_launcher_config env inst.script
  let config ←
    match launcherPair.1 with
    | some l =>
      if l == "" then Except.ok config
      else
        (match dictGet config "game" with
         | PVal.dict g => Except.ok (dictSet config "game" (PVal.dict (dictSet g l launcherPair.2)))
         | _ => Except.error ())
    | Option.none => Except.ok config
  let config ←
    if hasKey inst.script "game" then do
      let merged ←
        match dictGet config "game", dictGet inst.script "game" with
        | PVal.dict g, PVal.dict sg => Except.ok (dictUpdate g sg)
        | _, _ => Except.error ()
      let g2 ← substitute_config env.subst merged
      let exe := pyGetD g2 "exe" (PVal.str "")
      let g3 :=
        if exeHasSub exe AUTO_ELF_EXE then
          dictSet g2 "exe" (PVal.str (env.find_linux_exe env.target_path))
        else if exeHasSub exe AUTO_WIN32_EXE then
          dictSet g2 "exe" (PVal.str (env.find_windows_exe env.target_path))
        else g2
      Except.ok (dictSet config "game" (PVal.dict g3))
    else Except.ok config
  let config := dictSet config "name" (PVal.str inst.game_name)
  let config := dictSet config "script" (PVal.dict inst.script)
  let config := dictSet config "variables" inst.script_variables
  let config := dictSet config "version" (PVal.str inst.version)
  let config := dictSet config "requires" inst.requires
  let config := dictSet config "slug" (PVal.str inst.slug)
  let config := dictSet config "game_slug" (PVal.str inst.game_slug)
  let config := dictSet config "year" inst.year
  match inst.service with
  | some s =>
    Except.ok (dictSet (dictSet config "service" (PVal.str s.id)) "service_id" inst.service_appid)
  | Option.none => Except.ok config

/-- The outcome of one `save` call: the returned game id, and whether a
config write and a record upsert happened. -/
structure SaveOut where
  game_id : Option Nat
  config_written : Bool
  upserted : Bool

/-- `LutrisInstaller.save`: an extension of another install writes
nothing and returns the identity id computed at construction; otherwise
the GOG post-install adaptation may fold native-manifest fields into the
script game section, the composed configuration is written, and the
install record is upserted, yielding the resulting id. -/
def save (env : Env) (inst : Inst) : Except Unit SaveOut :=
  if truthy inst.extends_ then
    Except.ok { game_id := inst.game_id, config_written := false, upserted := false }
  else do
    let inst' ←
      if inst.is_gog then
        let gc := env.gog_config env.target_path
        if truthy gc then
          match dictFind inst.script "game" with
          | some (PVal.dict g) =>
            let merged := dictUpdate g (env.convert_gog gc (env.gog_game_path env.target_path))
            Except.ok { inst with script := dictSet inst.script "game" (PVal.dict merged) }
          | _ => Except.error ()
        else Except.ok inst
      else Except.ok inst
    let cfg ← get_game_config env inst'
    let configpath := env.write_game_config inst'.slug cfg
    let gid := env.add_or_update
      { name := inst'.game_name
        runner := inst'.runner
        slug := inst'.game_slug
        platform := env.platform_of inst'.runner
        directory := env.target_path
        installed := 1
        hidden := 0
        installer_slug := inst'.slug
        parent_slug := inst'.requires
        year := inst'.year
        configpath := configpath
        service := inst'.service.map (fun s => s.id)
        service_id := inst'.service_appid
        id := inst'.game_id
        discord_id := inst'.discord_id }
    Except.ok { game_id := some gid, config_written := true, upserted := true }

/-- Whether a modelled value is a mapping. -/
def isDict : PVal → Bool
  | PVal.dict _ => true
  | _ => false

/-- A trivial environment: identity substitution, empty stores, no
moddb rewriting, nothing on disk. -/
def env0 : Env :=
  { subst := fun v => v
    subst_str := fun s => s
    extras := PVal.none
    is_moddb_url := fun _ => false
    get_moddb_download_url := fun s => s
    db := fun _ _ => Option.none
    load_config := fun _ _ => []
    target_path := ""
    game_files := []
    path_exists := fun _ => false
    get_game_launcher := fun _ => (Option.none, PVal.none)
    find_linux_exe := fun _ => ""
    find_windows_exe := fun _ => ""
    platform_of := fun _ => ""
    write_game_config := fun _ _ => ""
    add_or_update := fun _ => 0
    gog_config := fun _ => PVal.none
    gog_game_path := fun s => s
    convert_gog := fun _ _ => [] }

/-- A provider that is online but has no authenticated session. -/
def s0 : Service :=
  { id := "gog", online := true, connected := false, has_extras := false
    get_installer_files := fun _ _ => [], get_patch_files := fun _ => [] }

/-- A provider with a live session whose file-list requests come back
empty (the falsy failure result). -/
def s4 : Service :=
  { id := "gog", online := true, connected := true, has_extras := false
    get_installer_files := fun _ _ => [], get_patch_files := fun _ => [] }

/-- A minimal installer state. -/
def inst0 : Inst :=
  { version := "1.0", slug := "game-installer", year := PVal.none, runner := "wine"
    script := [], game_name := "Game", game_slug := "game", service := Option.none
    service_appid := PVal.none, script_variables := PVal.dict [], script_files := []
    files := [], requires := PVal.none, extends_ := PVal.none, game_id := Option.none
    is_gog := false, discord_id := PVal.none }

/-- An installer extending a base install whose identity resolved to
record 5. -/
def inst2 : Inst := { inst0 with extends_ := PVal.str "base", game_id := some 5 }

/-- A declared file with a concrete URL. -/
def f1 : InstallerFile :=
  { game_slug := "game", id := "f1", url := "http://example.com/x", filename := "x.bin" }

/-- An installer with one declared file and the unauthenticated
provider bound. -/
def inst3 : Inst := { inst0 with script_files := [f1], service := some s0 }

/-- An installer whose only declared file carries the manual-entry
sentinel, with the authenticated empty-result provider bound. -/
def inst4 : Inst :=
  { inst0 with
    script_files := [{ game_slug := "game", id := "myfile", url := "N/A: user provided",
                       filename := "f.bin" }]
    service := some s4 }

/-- An environment whose legacy launcher lookup yields a list value,
with an install target and a filesystem on which every probe succeeds
but an empty installed-files map. -/
def env6 : Env :=
  { env0 with
    target_path := "/install"
    path_exists := fun _ => true
    get_game_launcher := fun _ => (some "exe", PVal.list [PVal.str "game.bin"]) }

/-- An environment whose legacy launcher lookup yields the single
reference `main.exe`, resolved by the installed-files map. -/
def env6w : Env :=
  { env0 with
    game_files := [("main.exe", PVal.str "/install/main.exe")]
    get_game_launcher := fun _ => (some "exe", PVal.str "main.exe") }

end LutrisSpec

namespace LutrisSpec

/-- C1 counterexample: for a script with `requires` set (and no
`extends`) over an uninstalled existing record, the code returns the
existing id while the claim demands no id: `get_game_id` ignores
`requires`. -/
theorem get_game_id_requires_counterexample :
    get_game_id exDb "foo" PVal.none = some 1 ∧
    truthy (PVal.str "base") = true ∧
    get_game_id_claim exDb "foo" PVal.none (PVal.str "base") = Option.none :=
  ⟨rfl, rfl, rfl⟩

/-- C1 (amended): `get_game_id` returns `some n` exactly when the store
has a record for the slug with id `n` and either the script declares
`extends` or the record is not marked installed; the `requires` flag
plays no role. -/
theorem get_game_id_iff (db : String → String → Option GameRecord)
    (game_slug : String) (extends_ : PVal) (n : Nat) :
    get_game_id db game_slug extends_ = some n ↔
      ∃ g, db game_slug "slug" = some g ∧ g.id = n ∧
        (truthy extends_ = true ∨ g.installed = false) := by
  unfold get_game_id
  cases hdb : db game_slug "slug" with
  | none => simp
  | some g =>
    by_cases hc : (truthy extends_ || !g.installed) = true
    · simp only [hc, if_true]
      constructor
      · intro h
        refine ⟨g, rfl, by simpa using h, ?_⟩
        rcases Bool.or_eq_true .. |>.mp hc with h1 | h1
        · exact Or.inl h1
        · exact Or.inr (by simpa using h1)
      · rintro ⟨g', hg', hid, _⟩
        cases Option.some.injEq .. ▸ hg' with
        | refl => simpa using hid
    · simp only [hc, if_false]
      constructor
      · intro h; exact absurd h (by simp)
      · rintro ⟨g', hg', hid, hcase⟩
        cases Option.some.injEq .. ▸ hg' with
        | refl =>
          exfalso
          apply hc
          rcases hcase with h1 | h1
          · simp [h1]
          · simp [h1]

/-- C1 witness: on the resume scenario (record `foo`, installed = false),
the characterization yields the record id. -/
theorem get_game_id_iff_witness : get_game_id exDb "foo" PVal.none = some 1 :=
  (get_game_id_iff exDb "foo" PVal.none 1).mpr
    ⟨{ id := 1, installed := false, configpath := "cfg" }, rfl, rfl, Or.inr rfl⟩

/-- C2: when the script sets `extends`, `save` performs no config write
and no upsert and returns exactly the identity id computed at
construction. -/
theorem save_extends_no_write (env : Env) (inst : Inst)
    (h : truthy inst.extends_ = true) :
    save env inst =
      Except.ok { game_id := inst.game_id, config_written := false, upserted := false } := by
  unfold save
  simp [h]

/-- C2 witness: the extension installer `inst2` commits to no write and
returns its pre-existing id 5. -/
theorem save_extends_no_write_witness :
    save env0 inst2 =
      Except.ok { game_id := some 5, config_written := false, upserted := false } :=
  save_extends_no_write env0 inst2 rfl

/-- C3 counterexample: with no declared files, an online provider with
no authenticated session does not make `prepare_game_files` raise — the
call returns without error, against the claim's unconditional
authentication failure. -/
theorem prepare_auth_counterexample :
    prepare_game_files env0 { inst0 with service := some s0 } Option.none =
      { error := false, inst := { inst0 with service := some s0 }, provider_called := false } ∧
    s0.online = true ∧ s0.connected = false ∧ inst0.script_files = [] :=
  ⟨rfl, rfl, rfl, rfl⟩

/-- C3 (amended): with at least one declared file, a bound provider
that is online but not authenticated makes `prepare_game_files` raise
the authentication error before touching the working file list (the
whole state is returned unchanged) and before any provider file-list
request. -/
theorem prepare_auth_error (env : Env) (inst : Inst) (s : Service) (pv : Option String)
    (hne : inst.script_files.isEmpty = false)
    (hs : inst.service = some s)
    (ho : s.online = true) (hc : s.connected = false) :
    prepare_game_files env inst pv =
      { error := true, inst := inst, provider_called := false } := by
  unfold prepare_game_files
  simp [hne, hs, ho, hc]

/-- C3 witness: the one-file installer with the unauthenticated
provider aborts with the authentication error and an untouched state. -/
theorem prepare_auth_error_witness :
    prepare_game_files env0 inst3 Option.none =
      { error := true, inst := inst3, provider_called := false } :=
  prepare_auth_error env0 inst3 s0 Option.none rfl rfl rfl rfl

/-- C9: `prepare_game_files` never changes the declared file list: the
`script_files` of the resulting state are those of the input state, on
every path (early return, authentication error, manual fallback,
provider append). -/
theorem prepare_preserves_script_files (env : Env) (inst : Inst) (pv : Option String) :
    (prepare_game_files env inst pv).inst.script_files = inst.script_files := by
  unfold prepare_game_files
  dsimp only
  repeat' split
  all_goals rfl

/-- C10: a script value that is not a mapping makes `get_errors` return
exactly the single dictionary finding, short-circuiting every other
validation. -/
theorem get_errors_non_dict (script : PVal) (runner game_name game_slug : String)
    (h : isDict script = false) :
    get_errors script runner game_name game_slug = [dictMsg] := by
  cases script <;> simp_all [get_errors, isDict]

/-- C10 witness: a plain-string script yields only the dictionary
finding. -/
theorem get_errors_non_dict_witness :
    get_errors (PVal.str "echo") "wine" "Game" "game" = [dictMsg] :=
  get_errors_non_dict (PVal.str "echo") "wine" "Game" "game" rfl

/-- C4: with a bound provider past the authentication gate, a declared
manual-entry file held aside, and a provider installer-file request
that comes back empty, the plan puts a manual-entry placeholder (same
id, empty filename, sentinel URL) at the front, followed by the
URL-rewritten working copy of the remaining declared files. -/
theorem prepare_provider_fallback (env : Env) (inst : Inst) (s : Service) (fid : String)
    (hne : inst.script_files.isEmpty = false)
    (hs : inst.service = some s)
    (hauth : (s.online && !s.connected) = false)
    (hup : get_user_provided_file inst.script_files = some fid)
    (hfid : (fid == "") = false)
    (hprov : s.get_installer_files fid env.extras = []) :
    prepare_game_files env inst Option.none =
      { error := false
        inst := { inst with files :=
          { game_slug := inst.game_slug, id := fid, url := "N/A: Provider installer file",
            filename := "" } :: workingCopy env inst.script_files (some fid) }
        provider_called := true } := by
  unfold prepare_game_files
  simp [hne, hs, hauth, hup, hfid, hprov]

/-- C4 witness: the one-declared-file installer whose provider returns
no files ends with exactly the manual-entry placeholder in its plan. -/
theorem prepare_provider_fallback_witness :
    prepare_game_files env0 inst4 Option.none =
      { error := false
        inst := { inst4 with files :=
          [{ game_slug := "game", id := "myfile", url := "N/A: Provider installer file",
             filename := "" }] }
        provider_called := true } :=
  prepare_provider_fallback env0 inst4 s4 "myfile" rfl rfl rfl (by decide) rfl rfl

/-- C5: a script carrying both a truthy `requires` and a truthy
`extends` always gets the "can't have both" finding from `get_errors`
(which is a pure function of the script and identity fields: it
consults no store). -/
theorem get_errors_requires_extends (d : List (String × PVal))
    (runner game_name game_slug : String)
    (hr : truthy (dictGet d "requires") = true)
    (he : truthy (dictGet d "extends") = true) :
    bothMsg ∈ get_errors (PVal.dict d) runner game_name game_slug := by
  unfold get_errors
  simp [hr, he]

/-- C5 witness: a script with both references set yields the finding. -/
theorem get_errors_requires_extends_witness :
    bothMsg ∈ get_errors (PVal.dict [("requires", PVal.str "a"), ("extends", PVal.str "b")])
      "wine" "Game" "game" :=
  get_errors_requires_extends [("requires", PVal.str "a"), ("extends", PVal.str "b")]
    "wine" "Game" "game" rfl rfl

/-- C6 counterexample: for a list-valued launcher reference, the code
applies only the installed-files map (keeping `game.bin` raw) while the
claim's element-wise rule would resolve it against the existing
filesystem path under the install target. -/
theorem launcher_list_counterexample :
    get_game_launcher_config env6 [] = (some "exe", PVal.list [PVal.str "game.bin"]) ∧
    resolveLauncherClaim env6 (PVal.list [PVal.str "game.bin"]) =
      PVal.list [PVal.str "/install/game.bin"] :=
  ⟨rfl, rfl⟩

/-- C6 (amended): a truthy single launcher value goes through
installed-files map, then filesystem probe, then raw; a list launcher
value is resolved element-wise through the installed-files map only. -/
theorem launcher_resolution (env : Env) (script : List (String × PVal))
    (l : Option String) (v : PVal)
    (h : env.get_game_launcher script = (l, v)) :
    (∀ xs, v = PVal.list xs →
      get_game_launcher_config env script = (l, PVal.list (xs.map (resolveLauncherRef env)))) ∧
    (∀ s, v = PVal.str s → truthy v = true →
      ((∀ p, dictFind env.game_files s = some p →
          get_game_launcher_config env script = (l, p)) ∧
       (dictFind env.game_files s = Option.none →
        (env.target_path != "" && env.path_exists (pathJoin env.target_path s)) = true →
        get_game_launcher_config env script = (l, PVal.str (pathJoin env.target_path s))) ∧
       (dictFind env.game_files s = Option.none →
        (env.target_path != "" && env.path_exists (pathJoin env.target_path s)) = false →
        get_game_launcher_config env script = (l, v)))) := by
  constructor
  · intro xs hxs
    subst hxs
    unfold get_game_launcher_config
    rw [h]
  · intro s hv htr
    subst hv
    refine ⟨?_, ?_, ?_⟩
    · intro p hp
      unfold get_game_launcher_config
      rw [h]
      simp [htr, hp]
    · intro hp hfs
      unfold get_game_launcher_config
      rw [h]
      simp [htr, hp, hfs]
    · intro hp hfs
      unfold get_game_launcher_config
      rw [h]
      simp [htr, hp, hfs]

/-- C6 witness: the spec's launcher-shortcut scenario — `main.exe`
mapped by the installed files to `/install/main.exe` composes to that
path. -/
theorem launcher_resolution_witness :
    get_game_launcher_config env6w [] = (some "exe", PVal.str "/install/main.exe") :=
  ((launcher_resolution env6w [] (some "exe") (PVal.str "main.exe") rfl).2
    "main.exe" rfl rfl).1 (PVal.str "/install/main.exe") rfl

theorem normalizeFalse_of (v : PVal) (h : pyLower (pyStr v) = "false") :
    normalizeFalse v = PVal.bool false := by
  unfold normalizeFalse
  rw [h]
  rfl

theorem normalizeFalse_not (v : PVal) (h : (pyLower (pyStr v) == "false") = false) :
    normalizeFalse v = v := by
  unfold normalizeFalse
  rw [h]
  rfl

theorem normalizeBool_of_true (value : PVal) (h : pyLower (pyStr value) = "true") :
    normalizeBool value = PVal.bool true := by
  unfold normalizeBool
  rw [h]
  exact normalizeFalse_not (PVal.bool true) (by decide)

theorem normalizeBool_of_false (value : PVal) (h : pyLower (pyStr value) = "false") :
    normalizeBool value = PVal.bool false := by
  unfold normalizeBool
  have h1 : (pyLower (pyStr value) == "true") = false := by simp [h]
  rw [h1]
  exact normalizeFalse_of value h

theorem normalizeBool_of_bool (b : Bool) : normalizeBool (PVal.bool b) = PVal.bool b := by
  cases b <;> rfl

theorem substitute_value_ok_norm (sub : PVal → PVal) (key : String) (value : PVal)
    (b : Bool) (w : PVal)
    (hn : normalizeBool value = PVal.bool b)
    (hw : substitute_value sub key value = Except.ok w) : w = PVal.bool b := by
  unfold substitute_value at hw
  rw [hn] at hw
  by_cases hk : (key == "launch_configs") = true
  · rw [hk] at hw
    simp at hw
  · have hk' : (key == "launch_configs") = false := by simpa using hk
    rw [hk'] at hw
    simp at hw
    exact hw.symm

theorem substitute_config_get (sub : PVal → PVal) (cfg : List (String × PVal)) :
    ∀ (out : List (String × PVal)) (i : Nat) (key : String) (value : PVal),
    substitute_config sub cfg = Except.ok out → cfg.get? i = some (key, value) →
    ∃ w, substitute_value sub key value = Except.ok w ∧ out.get? i = some (key, w) := by
  induction cfg with
  | nil =>
    intro out i key value hok hget
    simp at hget
  | cons hd tl ih =>
    intro out i key value hok hget
    obtain ⟨k0, v0⟩ := hd
    unfold substitute_config at hok
    cases hsv : substitute_value sub k0 v0 with
    | error e => rw [hsv] at hok; cases hok
    | ok w0 =>
      rw [hsv] at hok
      cases hrest : substitute_config sub tl with
      | error e => rw [hrest] at hok; cases hok
      | ok r =>
        rw [hrest] at hok
        have hout := Except.ok.inj hok
        subst hout
        cases i with
        | zero =>
          simp only [List.get?] at hget ⊢
          injection hget with h3
          rw [Prod.ext_iff] at h3
          obtain ⟨rfl, rfl⟩ := h3
          exact ⟨w0, hsv, rfl⟩
        | succ n =>
          simp only [List.get?] at hget ⊢
          exact ih r n key value hrest hget

/-- C7: for every config entry, a value whose Python string form is
`true`/`false` case-insensitively composes (whenever `_substitute_config`
succeeds) to the corresponding boolean at the same key and position,
independently of the substitution engine (so before any substitution is
applied to it), and values that are already booleans pass through
unchanged. -/
theorem substitute_config_bool_normalization (sub : PVal → PVal)
    (cfg out : List (String × PVal)) (i : Nat) (key : String) (value : PVal)
    (hok : substitute_config sub cfg = Except.ok out)
    (hget : cfg.get? i = some (key, value)) :
    ((pyLower (pyStr value) = "true" → out.get? i = some (key, PVal.bool true)) ∧
     (pyLower (pyStr value) = "false" → out.get? i = some (key, PVal.bool false)) ∧
     (∀ b, value = PVal.bool b → out.get? i = some (key, PVal.bool b))) := by
  obtain ⟨w, hw, hout⟩ := substitute_config_get sub cfg out i key value hok hget
  refine ⟨?_, ?_, ?_⟩
  · intro h
    rw [hout, substitute_value_ok_norm sub key value true w (normalizeBool_of_true value h) hw]
  · intro h
    rw [hout, substitute_value_ok_norm sub key value false w (normalizeBool_of_false value h) hw]
  · intro b hb
    subst hb
    rw [hout, substitute_value_ok_norm sub key (PVal.bool b) b w (normalizeBool_of_bool b) hw]

/-- C7 witness: the entry `opt: "TRUE"` composes to the boolean True
under the identity substitution, and an already-boolean entry passes
through. -/
theorem substitute_config_bool_normalization_witness :
    substitute_config (fun v => v) [("opt", PVal.str "TRUE"), ("flag", PVal.bool false)] =
      Except.ok [("opt", PVal.bool true), ("flag", PVal.bool false)] ∧
    ([("opt", PVal.bool true), ("flag", PVal.bool false)] : List (String × PVal)).get? 0 =
      some ("opt", PVal.bool true) :=
  ⟨rfl,
   (substitute_config_bool_normalization (fun v => v)
      [("opt", PVal.str "TRUE"), ("flag", PVal.bool false)]
      [("opt", PVal.bool true), ("flag", PVal.bool false)] 0 "opt" (PVal.str "TRUE")
      rfl rfl).1 rfl⟩

/-- C8: a DLC script's `dlcid` is returned unconditionally, overriding
any caller-supplied identifier; a caller-supplied identifier wins only
when `is_dlc` is not set; and only past both do the provider-specific
fields apply, before the generic `service_id` fallback, for each of the
three recognized providers (steam: `steamid` then `service_id`; gog:
the game section's `gogid`, then the script-level `gogid`, then
`service_id`; humblebundle: the game section's `humbleid`, then
`humblestoreid`, then `service_id` — each ordering expressed by the
truthiness-or chain `pyOr`). -/
theorem get_appid_precedence (service : Option Service)
    (script installer : List (String × PVal)) (initial : PVal) :
    (truthy (dictGet installer "is_dlc") = true →
      get_appid service script installer initial = dictGet installer "dlcid") ∧
    (truthy (dictGet installer "is_dlc") = false → truthy initial = true →
      get_appid service script installer initial = initial) ∧
    (∀ s, truthy (dictGet installer "is_dlc") = false → truthy initial = false →
      service = some s → s.id = "steam" →
      get_appid service script installer initial =
        pyOr (dictGet installer "steamid") (dictGet installer "service_id")) ∧
    (∀ s, truthy (dictGet installer "is_dlc") = false → truthy initial = false →
      service = some s → s.id = "gog" →
      get_appid service script installer initial =
        pyOr (pvGet (pyGetD script "game" (PVal.dict [])) "gogid")
          (pyOr (dictGet installer "gogid") (dictGet installer "service_id"))) ∧
    (∀ s, truthy (dictGet installer "is_dlc") = false → truthy initial = false →
      service = some s → s.id = "humblebundle" →
      get_appid service script installer initial =
        pyOr (pvGet (pyGetD script "game" (PVal.dict [])) "humbleid")
          (pyOr (dictGet installer "humblestoreid") (dictGet installer "service_id"))) := by
  refine ⟨?_, ?_, ?_, ?_, ?_⟩
  · intro h
    simp [get_appid, h]
  · intro h1 h2
    simp [get_appid, h1, h2]
  · intro s h1 h2 hs hid
    subst hs
    simp [get_appid, h1, h2, hid]
  · intro s h1 h2 hs hid
    subst hs
    have hne : (("gog" : String) == "steam") = false := by decide
    simp [get_appid, h1, h2, hid, hne]
  · intro s h1 h2 hs hid
    subst hs
    have hne1 : (("humblebundle" : String) == "steam") = false := by decide
    have hne2 : (("humblebundle" : String) == "gog") = false := by decide
    simp [get_appid, h1, h2, hid, hne1, hne2]

/-- C8 witness: a DLC script returns its `dlcid` over the caller id;
without `is_dlc` the caller id wins; and for a gog provider with no
caller id, the game section's `gogid` wins over the generic
`service_id`. -/
theorem get_appid_precedence_witness :
    get_appid Option.none [] [("is_dlc", PVal.bool true), ("dlcid", PVal.str "d1")]
      (PVal.str "caller") = PVal.str "d1" ∧
    get_appid Option.none [] [("dlcid", PVal.str "d1")] (PVal.str "caller") =
      PVal.str "caller" ∧
    get_appid (some s4) [("game", PVal.dict [("gogid", PVal.str "g1")])]
      [("service_id", PVal.str "s1")] PVal.none = PVal.str "g1" :=
  ⟨(get_appid_precedence Option.none []
      [("is_dlc", PVal.bool true), ("dlcid", PVal.str "d1")] (PVal.str "caller")).1 rfl,
   (get_appid_precedence Option.none [] [("dlcid", PVal.str "d1")]
      (PVal.str "caller")).2.1 rfl rfl,
   (get_appid_precedence (some s4) [("game", PVal.dict [("gogid", PVal.str "g1")])]
      [("service_id", PVal.str "s1")] PVal.none).2.2.2.1 s4 rfl rfl rfl rfl⟩

end LutrisSpec
